import Mathlib

/-!
Verification of the periodic-check and state-transition alerting engine of the
uptime-monitor repository, as a shallow embedding in Lean 4.

The repository contains three structurally similar website-monitor variants:

* `features` : internal/features/uptime (services/monitor.go + database/database.go),
* `api`      : the main-package variant (cmd/api/handlers + cmd/api/database.go),
* `server`   : internal/server/services/monitor/monitor.go + internal/server/database.go,

and one RSS scheduler/fetcher (internal/features/rss services).  Timestamps are
modelled as integers (seconds); `time.Now()` is passed in explicitly as `now`.
The SQL store is modelled as append-only lists of rows; the `ORDER BY
checked_at DESC LIMIT 1` query is modelled as the row with the maximal
`checked_at` among the rows of the website.  The mailer is modelled as a log of
send events together with a per-call success flag; fallible operations carry
explicit outcome flags in an `Env` record.
-/

namespace UptimeMonitor

/-- Result of the outbound `http.Get` in `CheckWebsite`: either a transport
failure carrying the error description, or a response with a status code. -/
inductive ProbeResult where
  | failure (msg : String)
  | success (code : Int)
deriving DecidableEq

/-- Fields computed by `CheckWebsite` from the probe before storing: `isUp`,
`statusCode` and `errorMsg` (Go zero values apply to the untouched fields). -/
structure ProbeOutcome where
  isUp : Bool
  statusCode : Int
  errorMsg : String
deriving DecidableEq

/-- Embedding of the probe-classification part of `CheckWebsite`
(monitor.go): on error, `errorMsg` is set and `isUp = false` with
`statusCode` left at its zero value 0; otherwise `statusCode` is the response
code and `isUp = (resp.StatusCode == http.StatusOK)`, i.e. exactly 200. -/
def probeOutcome : ProbeResult → ProbeOutcome
  | .failure msg => { isUp := false, statusCode := 0, errorMsg := msg }
  | .success code => { isUp := (code == 200), statusCode := code, errorMsg := "" }

/-- Row of the `uptime_checks` table. -/
structure CheckRow where
  websiteID : Int
  status : String
  statusCode : Int
  responseTime : Int
  errorMsg : String
  checkedAt : Int
deriving DecidableEq

/-- Row of the `alert_history` table. -/
structure AlertRow where
  websiteID : Int
  alertType : String
  sentAt : Int
deriving DecidableEq

/-- One successful `mailer.Send` call, identified by the website and the
`AlertType` field of the template data. -/
structure MailEvent where
  websiteID : Int
  alertType : String
deriving DecidableEq

/-- Combined state: the two store tables plus the log of mails actually sent. -/
structure State where
  checks : List CheckRow
  alerts : List AlertRow
  mails : List MailEvent
deriving DecidableEq

/-- Initial state: empty store, nothing sent. -/
def emptyState : State := { checks := [], alerts := [], mails := [] }

/-- Outcome flags for the fallible collaborators inside one alert-send attempt:
`listOk` for `getWebsitesWithStatus` (api variant only), `sendOk` for
`mailer.Send`, `recordOk` for the `RecordAlertSent` insert. -/
structure Env where
  listOk : Bool
  sendOk : Bool
  recordOk : Bool
deriving DecidableEq

/-- Embedding of `StoreUptimeCheck`: insert one row into `uptime_checks`,
with `status` the string "up" or "down" derived from `isUp`. -/
def storeUptimeCheck (st : State) (websiteID statusCode responseTime : Int)
    (isUp : Bool) (errorMsg : String) (now : Int) : State :=
  { st with checks := st.checks ++
      [{ websiteID := websiteID
         status := if isUp then "up" else "down"
         statusCode := statusCode
         responseTime := responseTime
         errorMsg := errorMsg
         checkedAt := now }] }

/-- Row with the maximal `checkedAt` in a list (the `ORDER BY checked_at DESC
LIMIT 1` result); on equal timestamps the earlier row is kept, which never
matters on reachable states because `time.Now()` stamps are strictly
increasing. -/
def mostRecent : List CheckRow → Option CheckRow
  | [] => none
  | r :: rs =>
    match mostRecent rs with
    | none => some r
    | some m => if r.checkedAt ≥ m.checkedAt then some r else some m

/-- Embedding of `GetLastWebsiteStatus`: most recent `uptime_checks` row for
the website, `none` when the website has no rows (the features variant returns
`nil, nil` there; the other variants return an error — both are modelled by
`none`, which the callers treat as the first-check case). -/
def getLastWebsiteStatus (st : State) (websiteID : Int) : Option CheckRow :=
  mostRecent (st.checks.filter (fun r => r.websiteID == websiteID))

/-- Embedding of `ShouldSendAlert` of internal/features/uptime/database: true
iff no `alert_history` row for (website, kind) has `sent_at` within the last
hour (`sent_at > now - 1 hour`). -/
def shouldSendAlert (st : State) (websiteID : Int) (alertType : String) (now : Int) : Bool :=
  (st.alerts.filter (fun a =>
    a.websiteID == websiteID && a.alertType == alertType &&
      decide (now - 3600 < a.sentAt))).length == 0

/-- Embedding of `shouldSendAlert` of cmd/api/database.go: a one-hour window
for kind "down", a 24-hour window for kind "recovery", false otherwise. -/
def shouldSendAlertApi (st : State) (websiteID : Int) (alertType : String) (now : Int) : Bool :=
  if alertType == "down" then
    (st.alerts.filter (fun a =>
      a.websiteID == websiteID && a.alertType == "down" &&
        decide (now - 3600 < a.sentAt))).length == 0
  else if alertType == "recovery" then
    (st.alerts.filter (fun a =>
      a.websiteID == websiteID && a.alertType == "recovery" &&
        decide (now - 86400 < a.sentAt))).length == 0
  else
    false

/-- Embedding of `ShouldSendAlert` of internal/server/database.go: a flat
30-minute window for every kind. -/
def shouldSendAlertSrv (st : State) (websiteID : Int) (alertType : String) (now : Int) : Bool :=
  (st.alerts.filter (fun a =>
    a.websiteID == websiteID && a.alertType == alertType &&
      decide (now - 1800 < a.sentAt))).length == 0

/-- Embedding of `RecordAlertSent`: insert one `alert_history` row stamped
with the current time. -/
def recordAlertSent (st : State) (websiteID : Int) (alertType : String) (now : Int) : State :=
  { st with alerts := st.alerts ++
      [{ websiteID := websiteID, alertType := alertType, sentAt := now }] }

/-- Embedding of `sendDownAlert` of internal/features/uptime: consult
`ShouldSendAlert`; if suppressed, return unchanged; if `mailer.Send` fails,
return with nothing recorded; otherwise log the mail and then attempt
`RecordAlertSent`, whose failure is logged but otherwise ignored. -/
def sendDownAlert (st : State) (websiteID : Int) (now : Int) (env : Env) : State :=
  if !(shouldSendAlert st websiteID "down" now) then st
  else if !env.sendOk then st
  else
    let st1 := { st with mails := st.mails ++ [{ websiteID := websiteID, alertType := "down" }] }
    if env.recordOk then recordAlertSent st1 websiteID "down" now else st1

/-- Embedding of `sendRecoveryAlert` of internal/features/uptime, mirroring
`sendDownAlert` with kind "recovery". -/
def sendRecoveryAlert (st : State) (websiteID : Int) (now : Int) (env : Env) : State :=
  if !(shouldSendAlert st websiteID "recovery" now) then st
  else if !env.sendOk then st
  else
    let st1 := { st with mails := st.mails ++ [{ websiteID := websiteID, alertType := "recovery" }] }
    if env.recordOk then recordAlertSent st1 websiteID "recovery" now else st1

/-- Embedding of `sendDownAlert` of the cmd/api main package: after the
cooldown gate it additionally calls `getWebsitesWithStatus`, returning early
when that fails. -/
def sendDownAlertApi (st : State) (websiteID : Int) (now : Int) (env : Env) : State :=
  if !(shouldSendAlertApi st websiteID "down" now) then st
  else if !env.listOk then st
  else if !env.sendOk then st
  else
    let st1 := { st with mails := st.mails ++ [{ websiteID := websiteID, alertType := "down" }] }
    if env.recordOk then recordAlertSent st1 websiteID "down" now else st1

/-- Embedding of `sendRecoveryAlert` of the cmd/api main package. -/
def sendRecoveryAlertApi (st : State) (websiteID : Int) (now : Int) (env : Env) : State :=
  if !(shouldSendAlertApi st websiteID "recovery" now) then st
  else if !env.listOk then st
  else if !env.sendOk then st
  else
    let st1 := { st with mails := st.mails ++ [{ websiteID := websiteID, alertType := "recovery" }] }
    if env.recordOk then recordAlertSent st1 websiteID "recovery" now else st1

/-- Embedding of `sendDownAlert` of internal/server/services/monitor. -/
def sendDownAlertSrv (st : State) (websiteID : Int) (now : Int) (env : Env) : State :=
  if !(shouldSendAlertSrv st websiteID "down" now) then st
  else if !env.sendOk then st
  else
    let st1 := { st with mails := st.mails ++ [{ websiteID := websiteID, alertType := "down" }] }
    if env.recordOk then recordAlertSent st1 websiteID "down" now else st1

/-- Embedding of `sendRecoveryAlert` of internal/server/services/monitor. -/
def sendRecoveryAlertSrv (st : State) (websiteID : Int) (now : Int) (env : Env) : State :=
  if !(shouldSendAlertSrv st websiteID "recovery" now) then st
  else if !env.sendOk then st
  else
    let st1 := { st with mails := st.mails ++ [{ websiteID := websiteID, alertType := "recovery" }] }
    if env.recordOk then recordAlertSent st1 websiteID "recovery" now else st1

/-- Which branch of `handleStatusChange` produced an alert candidate. -/
inductive Trigger where
  | transitionDown
  | transitionRecovery
  | stillDownReminder
  | firstCheckDown
deriving DecidableEq

/-- An alert candidate: an invocation of `sendDownAlert`/`sendRecoveryAlert`
together with the branch that raised it (the send itself is still gated by the
cooldown inside the send function). -/
structure Candidate where
  websiteID : Int
  kind : String
  trigger : Trigger
deriving DecidableEq

/-- Embedding of `handleStatusChange` of internal/features/uptime: read the
last stored status; on no row, return (first check, no alert); otherwise run
the two transition tests in sequence (`up` to `down` sends a down alert, `down`
to `up` sends a recovery alert). -/
def handleStatusChange (st : State) (websiteID : Int) (currentIsUp : Bool)
    (now : Int) (env : Env) : State × List Candidate :=
  match getLastWebsiteStatus st websiteID with
  | none => (st, [])
  | some lastStatus =>
    let previousIsUp := lastStatus.status == "up"
    let p1 :=
      if previousIsUp && !currentIsUp then
        (sendDownAlert st websiteID now env,
         [{ websiteID := websiteID, kind := "down", trigger := Trigger.transitionDown }])
      else (st, [])
    let p2 :=
      if !previousIsUp && currentIsUp then
        (sendRecoveryAlert p1.1 websiteID now env,
         [{ websiteID := websiteID, kind := "recovery", trigger := Trigger.transitionRecovery }])
      else (p1.1, [])
    (p2.1, p1.2 ++ p2.2)

/-- Embedding of `handleStatusChange` of the cmd/api main package: a missing
previous row (query error) is treated as the first check, sending an initial
down alert when the site is down; otherwise the transition branches run,
followed by a still-down reminder branch. -/
def handleStatusChangeApi (st : State) (websiteID : Int) (currentIsUp : Bool)
    (now : Int) (env : Env) : State × List Candidate :=
  match getLastWebsiteStatus st websiteID with
  | none =>
    if currentIsUp then (st, [])
    else
      (sendDownAlertApi st websiteID now env,
       [{ websiteID := websiteID, kind := "down", trigger := Trigger.firstCheckDown }])
  | some lastStatus =>
    let previousIsUp := lastStatus.status == "up"
    if previousIsUp && !currentIsUp then
      (sendDownAlertApi st websiteID now env,
       [{ websiteID := websiteID, kind := "down", trigger := Trigger.transitionDown }])
    else if !previousIsUp && currentIsUp then
      (sendRecoveryAlertApi st websiteID now env,
       [{ websiteID := websiteID, kind := "recovery", trigger := Trigger.transitionRecovery }])
    else if !currentIsUp then
      (sendDownAlertApi st websiteID now env,
       [{ websiteID := websiteID, kind := "down", trigger := Trigger.stillDownReminder }])
    else (st, [])

/-- Embedding of `handleStatusChange` of internal/server/services/monitor,
which has the same branch structure as the cmd/api variant. -/
def handleStatusChangeSrv (st : State) (websiteID : Int) (currentIsUp : Bool)
    (now : Int) (env : Env) : State × List Candidate :=
  match getLastWebsiteStatus st websiteID with
  | none =>
    if currentIsUp then (st, [])
    else
      (sendDownAlertSrv st websiteID now env,
       [{ websiteID := websiteID, kind := "down", trigger := Trigger.firstCheckDown }])
  | some lastStatus =>
    let previousIsUp := lastStatus.status == "up"
    if previousIsUp && !currentIsUp then
      (sendDownAlertSrv st websiteID now env,
       [{ websiteID := websiteID, kind := "down", trigger := Trigger.transitionDown }])
    else if !previousIsUp && currentIsUp then
      (sendRecoveryAlertSrv st websiteID now env,
       [{ websiteID := websiteID, kind := "recovery", trigger := Trigger.transitionRecovery }])
    else if !currentIsUp then
      (sendDownAlertSrv st websiteID now env,
       [{ websiteID := websiteID, kind := "down", trigger := Trigger.stillDownReminder }])
    else (st, [])

/-- Embedding of `CheckWebsite` of internal/features/uptime: classify the
probe, store the observation, then consult `handleStatusChange`. -/
def checkWebsite (st : State) (websiteID : Int) (probe : ProbeResult)
    (responseTime now : Int) (env : Env) : State × List Candidate :=
  let o := probeOutcome probe
  let st1 := storeUptimeCheck st websiteID o.statusCode responseTime o.isUp o.errorMsg now
  handleStatusChange st1 websiteID o.isUp now env

/-- Embedding of `checkWebsite` of the cmd/api main package. -/
def checkWebsiteApi (st : State) (websiteID : Int) (probe : ProbeResult)
    (responseTime now : Int) (env : Env) : State × List Candidate :=
  let o := probeOutcome probe
  let st1 := storeUptimeCheck st websiteID o.statusCode responseTime o.isUp o.errorMsg now
  handleStatusChangeApi st1 websiteID o.isUp now env

/-- Embedding of `CheckWebsite` of internal/server/services/monitor. -/
def checkWebsiteSrv (st : State) (websiteID : Int) (probe : ProbeResult)
    (responseTime now : Int) (env : Env) : State × List Candidate :=
  let o := probeOutcome probe
  let st1 := storeUptimeCheck st websiteID o.statusCode responseTime o.isUp o.errorMsg now
  handleStatusChangeSrv st1 websiteID o.isUp now env

/-- One scheduled check of one website: everything `CheckWebsite` needs. -/
structure Step where
  websiteID : Int
  probe : ProbeResult
  responseTime : Int
  now : Int
  env : Env
deriving DecidableEq

/-- The three website-monitor variants present in the repository. -/
inductive Variant where
  | features
  | api
  | server
deriving DecidableEq

/-- Dispatch one check through the chosen variant. -/
def stepCheck (v : Variant) (st : State) (s : Step) : State × List Candidate :=
  match v with
  | .features => checkWebsite st s.websiteID s.probe s.responseTime s.now s.env
  | .api => checkWebsiteApi st s.websiteID s.probe s.responseTime s.now s.env
  | .server => checkWebsiteSrv st s.websiteID s.probe s.responseTime s.now s.env

/-- Run a sequence of checks, accumulating all raised candidates. -/
def runMonitor (v : Variant) (st : State) : List Step → State × List Candidate
  | [] => (st, [])
  | s :: rest =>
    let p := stepCheck v st s
    let q := runMonitor v p.1 rest
    (q.1, p.2 ++ q.2)

/-- The check row inserted by one step. -/
def storedRow (s : Step) : CheckRow :=
  { websiteID := s.websiteID
    status := if (probeOutcome s.probe).isUp then "up" else "down"
    statusCode := (probeOutcome s.probe).statusCode
    responseTime := s.responseTime
    errorMsg := (probeOutcome s.probe).errorMsg
    checkedAt := s.now }

theorem mostRecent_append (l : List CheckRow) (x : CheckRow)
    (h : ∀ r ∈ l, r.checkedAt < x.checkedAt) :
    mostRecent (l ++ [x]) = some x := by
  induction l with
  | nil => simp [mostRecent]
  | cons r l ih =>
    have hr : r.checkedAt < x.checkedAt := h r (List.mem_cons_self r l)
    have hl : ∀ u ∈ l, u.checkedAt < x.checkedAt := fun u hu => h u (List.mem_cons_of_mem r hu)
    simp [mostRecent, ih hl, not_le_of_lt hr]

/-- After `StoreUptimeCheck`, the last-status query for the same website
returns exactly the row just written, provided every existing row of that
website carries an earlier timestamp (which `time.Now()` guarantees). -/
theorem getLast_after_store (st : State) (wid code rt : Int) (isUp : Bool)
    (msg : String) (now : Int)
    (h : ∀ r ∈ st.checks, r.websiteID = wid → r.checkedAt < now) :
    getLastWebsiteStatus (storeUptimeCheck st wid code rt isUp msg now) wid =
      some { websiteID := wid, status := if isUp then "up" else "down",
             statusCode := code, responseTime := rt, errorMsg := msg, checkedAt := now } := by
  unfold getLastWebsiteStatus storeUptimeCheck
  rw [List.filter_append]
  have hsing : List.filter (fun r => r.websiteID == wid)
      [({ websiteID := wid, status := if isUp then "up" else "down", statusCode := code,
          responseTime := rt, errorMsg := msg, checkedAt := now } : CheckRow)] =
      [{ websiteID := wid, status := if isUp then "up" else "down", statusCode := code,
         responseTime := rt, errorMsg := msg, checkedAt := now }] := by
    simp [List.filter]
  rw [hsing]
  apply mostRecent_append
  intro r hr
  rw [List.mem_filter] at hr
  exact h r hr.1 (by simpa using hr.2)

theorem sendDownAlert_frame (st : State) (wid now : Int) (env : Env) :
    (sendDownAlert st wid now env).checks = st.checks ∧
    ((sendDownAlert st wid now env).mails = st.mails ∨
     (sendDownAlert st wid now env).mails =
       st.mails ++ [{ websiteID := wid, alertType := "down" }]) := by
  unfold sendDownAlert recordAlertSent
  split_ifs <;> simp

theorem sendDownAlertApi_frame (st : State) (wid now : Int) (env : Env) :
    (sendDownAlertApi st wid now env).checks = st.checks ∧
    ((sendDownAlertApi st wid now env).mails = st.mails ∨
     (sendDownAlertApi st wid now env).mails =
       st.mails ++ [{ websiteID := wid, alertType := "down" }]) := by
  unfold sendDownAlertApi recordAlertSent
  split_ifs <;> simp

theorem sendDownAlertSrv_frame (st : State) (wid now : Int) (env : Env) :
    (sendDownAlertSrv st wid now env).checks = st.checks ∧
    ((sendDownAlertSrv st wid now env).mails = st.mails ∨
     (sendDownAlertSrv st wid now env).mails =
       st.mails ++ [{ websiteID := wid, alertType := "down" }]) := by
  unfold sendDownAlertSrv recordAlertSent
  split_ifs <;> simp

/-- Dispatch of `handleStatusChange` through the chosen variant. -/
def handleV (v : Variant) (st : State) (websiteID : Int) (currentIsUp : Bool)
    (now : Int) (env : Env) : State × List Candidate :=
  match v with
  | .features => handleStatusChange st websiteID currentIsUp now env
  | .api => handleStatusChangeApi st websiteID currentIsUp now env
  | .server => handleStatusChangeSrv st websiteID currentIsUp now env

theorem stepCheck_eq (v : Variant) (st : State) (s : Step) :
    stepCheck v st s =
      handleV v (storeUptimeCheck st s.websiteID (probeOutcome s.probe).statusCode
        s.responseTime (probeOutcome s.probe).isUp (probeOutcome s.probe).errorMsg s.now)
        s.websiteID (probeOutcome s.probe).isUp s.now s.env := by
  cases v <;> rfl

/-- Characterization of storing an observation and then handling the status
change, under fresh timestamps: because the observation is stored before
`handleStatusChange` reads the previous status, the status read back equals
the status just written; hence neither transition branch fires in any variant,
the only candidate ever raised is the still-down reminder of the api/server
variants, exactly one check row is appended, and any mail added carries kind
"down". -/
theorem storeHandle_cases (v : Variant) (st : State) (wid code rt : Int)
    (cur : Bool) (msg : String) (now : Int) (env : Env)
    (h : ∀ r ∈ st.checks, r.websiteID = wid → r.checkedAt < now) :
    (∀ c ∈ (handleV v (storeUptimeCheck st wid code rt cur msg now) wid cur now env).2,
        c.trigger = Trigger.stillDownReminder) ∧
    (handleV v (storeUptimeCheck st wid code rt cur msg now) wid cur now env).1.checks =
      st.checks ++ [{ websiteID := wid, status := if cur then "up" else "down",
                      statusCode := code, responseTime := rt, errorMsg := msg,
                      checkedAt := now }] ∧
    (∀ m ∈ (handleV v (storeUptimeCheck st wid code rt cur msg now) wid cur now env).1.mails,
        m ∈ st.mails ∨ m.alertType = "down") := by
  have hlast := getLast_after_store st wid code rt cur msg now h
  have hchecks : (storeUptimeCheck st wid code rt cur msg now).checks =
      st.checks ++ [{ websiteID := wid, status := if cur then "up" else "down",
                      statusCode := code, responseTime := rt, errorMsg := msg,
                      checkedAt := now }] := by
    simp [storeUptimeCheck]
  have hmails : (storeUptimeCheck st wid code rt cur msg now).mails = st.mails := by
    simp [storeUptimeCheck]
  cases v with
  | features =>
    have hh : handleV Variant.features (storeUptimeCheck st wid code rt cur msg now)
        wid cur now env = (storeUptimeCheck st wid code rt cur msg now, []) := by
      show handleStatusChange (storeUptimeCheck st wid code rt cur msg now) wid cur now env = _
      unfold handleStatusChange
      rw [hlast]
      cases cur <;> simp
    rw [hh, hchecks]
    refine ⟨by simp, rfl, ?_⟩
    intro m hm
    rw [hmails] at hm
    exact Or.inl hm
  | api =>
    cases cur with
    | true =>
      have hh : handleV Variant.api (storeUptimeCheck st wid code rt true msg now)
          wid true now env = (storeUptimeCheck st wid code rt true msg now, []) := by
        show handleStatusChangeApi (storeUptimeCheck st wid code rt true msg now)
          wid true now env = _
        unfold handleStatusChangeApi
        rw [hlast]
        simp
      rw [hh, hchecks]
      refine ⟨by simp, rfl, ?_⟩
      intro m hm
      rw [hmails] at hm
      exact Or.inl hm
    | false =>
      have hh : handleV Variant.api (storeUptimeCheck st wid code rt false msg now)
          wid false now env =
          (sendDownAlertApi (storeUptimeCheck st wid code rt false msg now) wid now env,
           [{ websiteID := wid, kind := "down", trigger := Trigger.stillDownReminder }]) := by
        show handleStatusChangeApi (storeUptimeCheck st wid code rt false msg now)
          wid false now env = _
        unfold handleStatusChangeApi
        rw [hlast]
        simp
      rw [hh]
      refine ⟨by simp, ?_, ?_⟩
      · rw [(sendDownAlertApi_frame (storeUptimeCheck st wid code rt false msg now)
          wid now env).1, hchecks]
      · intro m hm
        rcases (sendDownAlertApi_frame (storeUptimeCheck st wid code rt false msg now)
          wid now env).2 with hcase | hcase
        · rw [hcase, hmails] at hm
          exact Or.inl hm
        · rw [hcase, hmails] at hm
          rcases List.mem_append.mp hm with hm1 | hm1
          · exact Or.inl hm1
          · simp at hm1
            subst hm1
            exact Or.inr rfl
  | server =>
    cases cur with
    | true =>
      have hh : handleV Variant.server (storeUptimeCheck st wid code rt true msg now)
          wid true now env = (storeUptimeCheck st wid code rt true msg now, []) := by
        show handleStatusChangeSrv (storeUptimeCheck st wid code rt true msg now)
          wid true now env = _
        unfold handleStatusChangeSrv
        rw [hlast]
        simp
      rw [hh, hchecks]
      refine ⟨by simp, rfl, ?_⟩
      intro m hm
      rw [hmails] at hm
      exact Or.inl hm
    | false =>
      have hh : handleV Variant.server (storeUptimeCheck st wid code rt false msg now)
          wid false now env =
          (sendDownAlertSrv (storeUptimeCheck st wid code rt false msg now) wid now env,
           [{ websiteID := wid, kind := "down", trigger := Trigger.stillDownReminder }]) := by
        show handleStatusChangeSrv (storeUptimeCheck st wid code rt false msg now)
          wid false now env = _
        unfold handleStatusChangeSrv
        rw [hlast]
        simp
      rw [hh]
      refine ⟨by simp, ?_, ?_⟩
      · rw [(sendDownAlertSrv_frame (storeUptimeCheck st wid code rt false msg now)
          wid now env).1, hchecks]
      · intro m hm
        rcases (sendDownAlertSrv_frame (storeUptimeCheck st wid code rt false msg now)
          wid now env).2 with hcase | hcase
        · rw [hcase, hmails] at hm
          exact Or.inl hm
        · rw [hcase, hmails] at hm
          rcases List.mem_append.mp hm with hm1 | hm1
          · exact Or.inl hm1
          · simp at hm1
            subst hm1
            exact Or.inr rfl

/-- The step-level consequence for `stepCheck`. -/
theorem stepCheck_cases (v : Variant) (st : State) (s : Step)
    (h : ∀ r ∈ st.checks, r.websiteID = s.websiteID → r.checkedAt < s.now) :
    (∀ c ∈ (stepCheck v st s).2, c.trigger = Trigger.stillDownReminder) ∧
    (stepCheck v st s).1.checks = st.checks ++ [storedRow s] ∧
    (∀ m ∈ (stepCheck v st s).1.mails, m ∈ st.mails ∨ m.alertType = "down") := by
  rw [stepCheck_eq]
  exact storeHandle_cases v st s.websiteID (probeOutcome s.probe).statusCode
    s.responseTime (probeOutcome s.probe).isUp (probeOutcome s.probe).errorMsg
    s.now s.env h

/-- Run-level consequence: starting from any state, a run with strictly
increasing check times only ever adds "down" mails, and only ever raises
still-down reminder candidates. -/
theorem runMonitor_spec (v : Variant) (steps : List Step) (st : State)
    (hb : ∀ r ∈ st.checks, ∀ s ∈ steps, r.checkedAt < s.now)
    (hinc : List.Pairwise (fun a b => a.now < b.now) steps) :
    (∀ m ∈ (runMonitor v st steps).1.mails, m ∈ st.mails ∨ m.alertType = "down") ∧
    (∀ c ∈ (runMonitor v st steps).2, c.trigger = Trigger.stillDownReminder) := by
  induction steps generalizing st with
  | nil => exact ⟨fun m hm => Or.inl hm, fun c hc => absurd hc (List.not_mem_nil c)⟩
  | cons s rest ih =>
    obtain ⟨hcand, hchecks, hmails⟩ :=
      stepCheck_cases v st s (fun r hr _ => hb r hr s (List.mem_cons_self s rest))
    rw [List.pairwise_cons] at hinc
    obtain ⟨hlt, hinc2⟩ := hinc
    have hb2 : ∀ r ∈ (stepCheck v st s).1.checks, ∀ u ∈ rest, r.checkedAt < u.now := by
      intro r hr u hu
      rw [hchecks] at hr
      rcases List.mem_append.mp hr with h1 | h1
      · exact hb r h1 u (List.mem_cons_of_mem s hu)
      · simp only [List.mem_singleton] at h1
        subst h1
        simpa [storedRow] using hlt u hu
    have hrest := ih (stepCheck v st s).1 hb2 hinc2
    constructor
    · intro m hm
      simp only [runMonitor] at hm
      rcases hrest.1 m hm with h1 | h1
      · exact hmails m h1
      · exact Or.inr h1
    · intro c hc
      simp only [runMonitor] at hc
      rcases List.mem_append.mp hc with h1 | h1
      · exact hcand c h1
      · exact hrest.2 c h1

theorem shouldSendAlert_false_of_recent (st : State) (wid now : Int) (k : String)
    (a : AlertRow) (ha : a ∈ st.alerts) (h1 : a.websiteID = wid) (h2 : a.alertType = k)
    (h3 : now - 3600 < a.sentAt) :
    shouldSendAlert st wid k now = false := by
  unfold shouldSendAlert
  rw [beq_eq_false_iff_ne, Ne, List.length_eq_zero]
  intro hnil
  have hmem : a ∈ st.alerts.filter (fun a =>
      a.websiteID == wid && a.alertType == k && decide (now - 3600 < a.sentAt)) :=
    List.mem_filter.mpr ⟨ha, by simp [h1, h2, h3]⟩
  rw [hnil] at hmem
  exact absurd hmem (List.not_mem_nil a)

theorem shouldSendAlert_true_of_none (st : State) (wid now : Int) (k : String)
    (h : ∀ a ∈ st.alerts, a.websiteID = wid → a.alertType = k → a.sentAt ≤ now - 3600) :
    shouldSendAlert st wid k now = true := by
  unfold shouldSendAlert
  rw [beq_iff_eq, List.length_eq_zero, List.filter_eq_nil_iff]
  intro a ha
  simp only [Bool.and_eq_true, beq_iff_eq, decide_eq_true_eq, not_and]
  intro h1 h2
  exact absurd h2 (not_lt.mpr (h a ha h1.1 h1.2))

theorem sendDownAlert_suppressed (st : State) (wid now : Int) (env : Env)
    (h : shouldSendAlert st wid "down" now = false) :
    sendDownAlert st wid now env = st := by
  unfold sendDownAlert
  rw [h]
  simp

theorem sendRecoveryAlert_suppressed (st : State) (wid now : Int) (env : Env)
    (h : shouldSendAlert st wid "recovery" now = false) :
    sendRecoveryAlert st wid now env = st := by
  unfold sendRecoveryAlert
  rw [h]
  simp

theorem sendDownAlert_sends (st : State) (wid now : Int) (env : Env)
    (h : shouldSendAlert st wid "down" now = true)
    (hs : env.sendOk = true) (hr : env.recordOk = true) :
    sendDownAlert st wid now env =
      { checks := st.checks,
        alerts := st.alerts ++ [{ websiteID := wid, alertType := "down", sentAt := now }],
        mails := st.mails ++ [{ websiteID := wid, alertType := "down" }] } := by
  unfold sendDownAlert recordAlertSent
  rw [h, hs, hr]
  simp

end UptimeMonitor

namespace RssReader

/-- One normalized article as produced by the fetcher (`models.ParsedArticle`).
Publication times are modelled as integers, `none` when unparsed. -/
structure ParsedArticle where
  title : String
  link : String
  description : String
  content : String
  author : String
  guid : String
  publishedAt : Option Int
deriving DecidableEq

/-- Output of the fetcher (`models.ParsedFeed`). -/
structure ParsedFeed where
  title : String
  link : String
  description : String
  language : String
  articles : List ParsedArticle
deriving DecidableEq

/-- RSS item as unmarshalled from XML (`Item` in the fetcher service). -/
structure Item where
  title : String
  link : String
  description : String
  content : String
  author : String
  pubDate : String
  guid : String
deriving DecidableEq

/-- RSS channel element (`Channel`). -/
structure Channel where
  title : String
  link : String
  description : String
  language : String
  items : List Item
deriving DecidableEq

/-- RSS document as unmarshalled from XML (`RSSFeed`): the `version`
attribute is the empty string when absent. -/
structure RSSFeed where
  version : String
  channel : Channel
deriving DecidableEq

/-- Link element of an Atom document (`AtomLink`). -/
structure AtomLink where
  href : String
  rel : String
deriving DecidableEq

/-- Entry of an Atom document (`AtomEntry`). -/
structure AtomEntry where
  title : String
  links : List AtomLink
  content : String
  author : String
  updated : String
  id : String
deriving DecidableEq

/-- Atom document as unmarshalled from XML (`AtomFeed`). -/
structure AtomFeed where
  title : String
  links : List AtomLink
  entries : List AtomEntry
deriving DecidableEq

/-- A date parser oracle standing for Go's `time.Parse layout value`: `some t`
on success, `none` on error.  `parseDate` is parameterized by it because the
layout-driven parsing itself lives in the Go standard library. -/
def TimeParse : Type := String → String → Option Int

/-- The fixed, ordered list of layout strings tried by `parseDate`
(time.RFC1123, time.RFC1123Z, time.RFC822, time.RFC822Z spelled out, then the
five literal layouts of the source). -/
def dateFormats : List String :=
  ["Mon, 02 Jan 2006 15:04:05 MST",
   "Mon, 02 Jan 2006 15:04:05 -0700",
   "02 Jan 06 15:04 MST",
   "02 Jan 06 15:04 -0700",
   "2006-01-02T15:04:05Z",
   "2006-01-02T15:04:05-07:00",
   "2006-01-02 15:04:05",
   "Mon, 02 Jan 2006 15:04:05 MST",
   "02 Jan 2006 15:04:05 MST"]

/-- First successful parse over an ordered list of layouts. -/
def firstParse (timeParse : TimeParse) : List String → String → Option Int
  | [], _ => none
  | f :: fs, s =>
    match timeParse f s with
    | some t => some t
    | none => firstParse timeParse fs s

/-- Embedding of `parseDate`: try the fixed layout list in order and return
the first success; `none` embeds the "unable to parse date" error. -/
def parseDate (timeParse : TimeParse) (dateStr : String) : Option Int :=
  firstParse timeParse dateFormats dateStr

/-- Normalization of one RSS item inside `parseRSSFeed`: `publishedAt` is set
only when `pubDate` is non-empty and `parseDate` succeeds; the item is kept in
every case. -/
def itemToArticle (timeParse : TimeParse) (item : Item) : ParsedArticle :=
  { title := item.title
    link := item.link
    description := item.description
    content := item.content
    author := item.author
    guid := item.guid
    publishedAt := if item.pubDate == "" then none else parseDate timeParse item.pubDate }

/-- Embedding of `parseRSSFeed`. -/
def parseRSSFeed (timeParse : TimeParse) (rss : RSSFeed) : ParsedFeed :=
  { title := rss.channel.title
    link := rss.channel.link
    description := rss.channel.description
    language := rss.channel.language
    articles := rss.channel.items.map (itemToArticle timeParse) }

/-- First link whose `rel` is empty or "alternate", as in the Atom link loops;
the empty string is the Go zero value when no link matches. -/
def firstAltLink (links : List AtomLink) : String :=
  match links.find? (fun l => l.rel == "" || l.rel == "alternate") with
  | some l => l.href
  | none => ""

/-- Normalization of one Atom entry inside `parseAtomFeed` (GUID falls back to
the Atom `id`, the date comes from `updated`). -/
def entryToArticle (timeParse : TimeParse) (entry : AtomEntry) : ParsedArticle :=
  { title := entry.title
    link := firstAltLink entry.links
    description := ""
    content := entry.content
    author := entry.author
    guid := entry.id
    publishedAt := if entry.updated == "" then none else parseDate timeParse entry.updated }

/-- Embedding of `parseAtomFeed`. -/
def parseAtomFeed (timeParse : TimeParse) (atom : AtomFeed) : ParsedFeed :=
  { title := atom.title
    link := firstAltLink atom.links
    description := ""
    language := ""
    articles := atom.entries.map (entryToArticle timeParse) }

/-- Embedding of `parseFeed` of the fetcher service.  `ctHasRssOrXml` stands
for `strings.Contains(contentType, "rss") || strings.Contains(contentType,
"xml")`; `rssRes` and `atomRes` stand for the results of `xml.Unmarshal` into
the RSS and Atom schema structs (`none` embeds an unmarshal error).  Branches,
in source order: (1) content-type gated RSS parse with no version-attribute
requirement, (2) Atom parse, (3) RSS parse requiring a non-empty `version`
attribute, (4) the "unable to parse feed as RSS or Atom" error. -/
def parseFeed (timeParse : TimeParse) (ctHasRssOrXml : Bool)
    (rssRes : Option RSSFeed) (atomRes : Option AtomFeed) : Except String ParsedFeed :=
  match ctHasRssOrXml, rssRes with
  | true, some rssFeed => .ok (parseRSSFeed timeParse rssFeed)
  | _, _ =>
    match atomRes with
    | some atomFeed => .ok (parseAtomFeed timeParse atomFeed)
    | none =>
      match rssRes with
      | some rssFeed =>
        if rssFeed.version != "" then .ok (parseRSSFeed timeParse rssFeed)
        else .error "unable to parse feed as RSS or Atom"
      | none => .error "unable to parse feed as RSS or Atom"

/-- Parsing policy exactly as the specification words it, for comparison with
`parseFeed`: (1) an RSS parse with a strict version-attribute requirement, (2)
on failure an Atom parse, (3) on failure an RSS parse without the version
requirement, (4) otherwise an unparseable-feed error.  The content type plays
no role in the specification's wording. -/
def parseFeedSpecClaimed (timeParse : TimeParse) (_ctHasRssOrXml : Bool)
    (rssRes : Option RSSFeed) (atomRes : Option AtomFeed) : Except String ParsedFeed :=
  match rssRes with
  | some rssFeed =>
    if rssFeed.version != "" then .ok (parseRSSFeed timeParse rssFeed)
    else
      match atomRes with
      | some atomFeed => .ok (parseAtomFeed timeParse atomFeed)
      | none => .ok (parseRSSFeed timeParse rssFeed)
  | none =>
    match atomRes with
    | some atomFeed => .ok (parseAtomFeed timeParse atomFeed)
    | none => .error "unable to parse feed as RSS or Atom"

/-- Parsing policy as amended to match the source: (1) when the content type
mentions rss or xml, an RSS parse with no version requirement; (2) on failure
an Atom parse; (3) on failure an RSS parse requiring a non-empty version
attribute; (4) otherwise an unparseable-feed error. -/
def parseFeedSpecAmended (timeParse : TimeParse) (ctHasRssOrXml : Bool)
    (rssRes : Option RSSFeed) (atomRes : Option AtomFeed) : Except String ParsedFeed :=
  if ctHasRssOrXml ∧ rssRes.isSome then
    match rssRes with
    | some rssFeed => .ok (parseRSSFeed timeParse rssFeed)
    | none => .error "unable to parse feed as RSS or Atom"
  else if atomRes.isSome then
    match atomRes with
    | some atomFeed => .ok (parseAtomFeed timeParse atomFeed)
    | none => .error "unable to parse feed as RSS or Atom"
  else
    match rssRes with
    | some rssFeed =>
      if rssFeed.version != "" then .ok (parseRSSFeed timeParse rssFeed)
      else .error "unable to parse feed as RSS or Atom"
    | none => .error "unable to parse feed as RSS or Atom"

/-- Row of the `rss_feeds` table, with the fields the scheduler reads. -/
structure Feed where
  id : Int
  title : String
  description : String
  siteURL : String
  url : String
  lastFetched : Option Int
  fetchInterval : Int
deriving DecidableEq

/-- Row of the `rss_articles` table, keyed by (feed, GUID). -/
structure ArticleRow where
  feedID : Int
  title : String
  guid : String
  publishedAt : Option Int
deriving DecidableEq

/-- State of the RSS store. -/
structure RssState where
  feeds : List Feed
  articles : List ArticleRow
deriving DecidableEq

/-- Modelled from the spec: `ArticleService.ExistsByFeedAndGUID` is absent
from the source tree (only its caller in the scheduler remains); per the
storage contract `ArticleExists(targetID, guid) -> bool` and the
`UNIQUE(feed_id, guid)` schema, it reports whether an article row with this
feed id and GUID exists. -/
def existsByFeedAndGUID (st : RssState) (feedID : Int) (guid : String) : Bool :=
  st.articles.any (fun a => a.feedID == feedID && a.guid == guid)

/-- Embedding of `ArticleService.CreateArticle` at the level the scheduler
uses it: insert one `rss_articles` row. -/
def createArticle (st : RssState) (a : ArticleRow) : RssState :=
  { st with articles := st.articles ++ [a] }

/-- Embedding of the article loop of `SchedulerService.updateFeed`: for each
parsed article, skip it when `ExistsByFeedAndGUID` holds, otherwise create it
and count it in `articlesAdded`. -/
def processArticles (st : RssState) (feedID : Int) : List ParsedArticle → RssState × Nat
  | [] => (st, 0)
  | a :: rest =>
    if existsByFeedAndGUID st feedID a.guid then processArticles st feedID rest
    else
      let st1 := createArticle st
        { feedID := feedID, title := a.title, guid := a.guid, publishedAt := a.publishedAt }
      let p := processArticles st1 feedID rest
      (p.1, p.2 + 1)

/-- Metadata update inside `updateFeed`: when the parsed feed has a title and
the stored feed has none, copy title (and description/site URL when present). -/
def applyFeedMeta (f : Feed) (pf : ParsedFeed) : Feed :=
  if pf.title != "" && f.title == "" then
    { f with
      title := pf.title
      description := if pf.description != "" then pf.description else f.description
      siteURL := if pf.link != "" then pf.link else f.siteURL }
  else f

/-- Update one feed row in the store by id. -/
def updateFeedRow (st : RssState) (feedID : Int) (g : Feed → Feed) : RssState :=
  { st with feeds := st.feeds.map (fun f => if f.id == feedID then g f else f) }

/-- Outcome of one `updateFeed` call. -/
inductive UpdateOutcome where
  | skippedNotDue
  | fetchFailed
  | completed (articlesAdded : Nat)
deriving DecidableEq

/-- Embedding of `SchedulerService.updateFeed`: skip when the feed was fetched
less than `fetchInterval` seconds ago; then fetch (the result is passed in as
`fetchRes`, `none` embedding a fetch/parse error); then update metadata,
process articles, and stamp `lastFetched` with the current time. -/
def updateFeed (st : RssState) (feed : Feed) (now : Int)
    (fetchRes : Option ParsedFeed) : RssState × UpdateOutcome :=
  let skip :=
    match feed.lastFetched with
    | some t => decide (now - t < feed.fetchInterval)
    | none => false
  if skip then (st, .skippedNotDue)
  else
    match fetchRes with
    | none => (st, .fetchFailed)
    | some pf =>
      let st1 := updateFeedRow st feed.id (fun f => applyFeedMeta f pf)
      let p := processArticles st1 feed.id pf.articles
      let st2 := updateFeedRow p.1 feed.id (fun f => { f with lastFetched := some now })
      (st2, .completed p.2)

/-- Embedding of `FeedService.GetFeed` at the level the scheduler uses it:
look the feed row up by id. -/
def getFeed (st : RssState) (feedID : Int) : Option Feed :=
  st.feeds.find? (fun f => f.id == feedID)

/-- Embedding of `SchedulerService.RefreshFeedByID`: look the feed up and run
the same `updateFeed` as a scheduled cycle; `none` embeds the get-feed error. -/
def RefreshFeedByID (st : RssState) (feedID : Int) (now : Int)
    (fetchRes : Option ParsedFeed) : Option (RssState × UpdateOutcome) :=
  match getFeed st feedID with
  | none => none
  | some feed => some (updateFeed st feed now fetchRes)

/-- Keys of the stored articles, for the (feed, GUID) uniqueness invariant. -/
def articleKeys (st : RssState) : List (Int × String) :=
  st.articles.map (fun a => (a.feedID, a.guid))

theorem processArticles_articles (st : RssState) (fid : Int) (arts : List ParsedArticle) :
    ∃ l, (processArticles st fid arts).1.articles = st.articles ++ l := by
  induction arts generalizing st with
  | nil => exact ⟨[], by simp [processArticles]⟩
  | cons a rest ih =>
    cases hex : existsByFeedAndGUID st fid a.guid with
    | true =>
      obtain ⟨l, hl⟩ := ih st
      refine ⟨l, ?_⟩
      simp only [processArticles, hex, if_true]
      exact hl
    | false =>
      obtain ⟨l, hl⟩ := ih (createArticle st
        { feedID := fid, title := a.title, guid := a.guid, publishedAt := a.publishedAt })
      refine ⟨{ feedID := fid, title := a.title, guid := a.guid,
                publishedAt := a.publishedAt } :: l, ?_⟩
      simp only [processArticles, hex, Bool.false_eq_true, if_false]
      rw [hl]
      simp [createArticle]

theorem existsBy_mono (st : RssState) (fid : Int) (g : String) (arts : List ParsedArticle)
    (h : existsByFeedAndGUID st fid g = true) :
    existsByFeedAndGUID (processArticles st fid arts).1 fid g = true := by
  obtain ⟨l, hl⟩ := processArticles_articles st fid arts
  unfold existsByFeedAndGUID at h ⊢
  rw [hl, List.any_append, h]
  rfl

theorem existsBy_create (st : RssState) (row : ArticleRow) :
    existsByFeedAndGUID (createArticle st row) row.feedID row.guid = true := by
  unfold existsByFeedAndGUID createArticle
  simp

theorem existsBy_after (st : RssState) (fid : Int) (arts : List ParsedArticle) :
    ∀ a ∈ arts, existsByFeedAndGUID (processArticles st fid arts).1 fid a.guid = true := by
  induction arts generalizing st with
  | nil => exact fun a ha => absurd ha (List.not_mem_nil a)
  | cons a rest ih =>
    intro b hb
    cases hex : existsByFeedAndGUID st fid a.guid with
    | true =>
      simp only [processArticles, hex, if_true]
      rcases List.mem_cons.mp hb with hba | hbr
      · subst hba
        exact existsBy_mono st fid b.guid rest hex
      · exact ih st b hbr
    | false =>
      have hrow : existsByFeedAndGUID (createArticle st
          { feedID := fid, title := a.title, guid := a.guid, publishedAt := a.publishedAt })
          fid a.guid = true := by
        simpa using existsBy_create st
          { feedID := fid, title := a.title, guid := a.guid, publishedAt := a.publishedAt }
      simp only [processArticles, hex, Bool.false_eq_true, if_false]
      rcases List.mem_cons.mp hb with hba | hbr
      · subst hba
        exact existsBy_mono _ fid b.guid rest hrow
      · exact ih (createArticle st
          { feedID := fid, title := a.title, guid := a.guid, publishedAt := a.publishedAt }) b hbr

theorem processArticles_noop (st : RssState) (fid : Int) (arts : List ParsedArticle)
    (h : ∀ a ∈ arts, existsByFeedAndGUID st fid a.guid = true) :
    processArticles st fid arts = (st, 0) := by
  induction arts with
  | nil => rfl
  | cons a rest ih =>
    have ha := h a (List.mem_cons_self a rest)
    simp only [processArticles, ha, if_true]
    exact ih (fun b hb => h b (List.mem_cons_of_mem a hb))

theorem processArticles_nodup (st : RssState) (fid : Int) (arts : List ParsedArticle)
    (h : (articleKeys st).Nodup) :
    (articleKeys (processArticles st fid arts).1).Nodup := by
  induction arts generalizing st with
  | nil => exact h
  | cons a rest ih =>
    cases hex : existsByFeedAndGUID st fid a.guid with
    | true =>
      simp only [processArticles, hex, if_true]
      exact ih st h
    | false =>
      simp only [processArticles, hex, Bool.false_eq_true, if_false]
      apply ih
      unfold articleKeys at h ⊢
      simp only [createArticle]
      rw [List.map_append, List.nodup_append]
      refine ⟨h, List.nodup_singleton _, ?_⟩
      intro x hx hx2
      simp only [List.map_cons, List.map_nil, List.mem_singleton] at hx2
      subst hx2
      rw [List.mem_map] at hx
      obtain ⟨r, hr, hrk⟩ := hx
      have hgot : existsByFeedAndGUID st fid a.guid = true := by
        unfold existsByFeedAndGUID
        rw [List.any_eq_true]
        refine ⟨r, hr, ?_⟩
        simp only [Prod.mk.injEq] at hrk
        simp [hrk.1, hrk.2]
      rw [hex] at hgot
      exact Bool.false_ne_true hgot

theorem firstParse_eq_none (tp : TimeParse) (fs : List String) (s : String)
    (h : ∀ f ∈ fs, tp f s = none) : firstParse tp fs s = none := by
  induction fs with
  | nil => rfl
  | cons f fs ih =>
    have hf := h f (List.mem_cons_self f fs)
    simp only [firstParse, hf]
    exact ih (fun g hg => h g (List.mem_cons_of_mem f hg))

theorem firstParse_first (tp : TimeParse) (pre : List String) (f : String)
    (post : List String) (s : String) (t : Int)
    (hpre : ∀ g ∈ pre, tp g s = none) (hf : tp f s = some t) :
    firstParse tp (pre ++ f :: post) s = some t := by
  induction pre with
  | nil => simp [firstParse, hf]
  | cons g pre ih =>
    have hg := hpre g (List.mem_cons_self g pre)
    simp only [List.cons_append, firstParse, hg]
    exact ih (fun u hu => hpre u (List.mem_cons_of_mem g hu))

end RssReader

open UptimeMonitor
open RssReader

/-- Environment in which every collaborator call succeeds. -/
def envAll : Env := { listOk := true, sendOk := true, recordOk := true }

/-- Environment in which the mailer send fails. -/
def envNoSend : Env := { listOk := true, sendOk := false, recordOk := true }

/-- Environment in which the send succeeds but recording the alert fails. -/
def envNoRecord : Env := { listOk := true, sendOk := true, recordOk := false }

/-- The observation sequence up, down, down, up for a single website (HTTP
200, 500, 500, 200), checked at strictly increasing times. -/
def c1Steps : List Step :=
  [{ websiteID := 1, probe := ProbeResult.success 200, responseTime := 5, now := 0, env := envAll },
   { websiteID := 1, probe := ProbeResult.success 500, responseTime := 5, now := 30, env := envAll },
   { websiteID := 1, probe := ProbeResult.success 500, responseTime := 5, now := 60, env := envAll },
   { websiteID := 1, probe := ProbeResult.success 200, responseTime := 5, now := 90, env := envAll }]

/-- C1: the spec says the observation sequence up, down, down, up yields
exactly one down-kind candidate at the first down and exactly one
recovery-kind candidate at the final up.  Evaluating the code on that
sequence: the features variant (the cited monitor.go) raises no candidates at
all and sends no mail, and the api variant raises only two still-down reminder
candidates (one mail, the second suppressed by cooldown) and no recovery
candidate — because `CheckWebsite` stores the observation before
`handleStatusChange` reads the previous status, no transition is ever seen. -/
theorem c1_transition_sequence_on_code :
    ((runMonitor Variant.features emptyState c1Steps).2.filter
      (fun c => c.kind == "down")).length = 0 ∧
    ((runMonitor Variant.features emptyState c1Steps).2.filter
      (fun c => c.kind == "recovery")).length = 0 ∧
    (runMonitor Variant.features emptyState c1Steps).1.mails = [] ∧
    ((runMonitor Variant.api emptyState c1Steps).2.map (fun c => c.trigger)) =
      [Trigger.stillDownReminder, Trigger.stillDownReminder] ∧
    ((runMonitor Variant.api emptyState c1Steps).2.filter
      (fun c => c.kind == "recovery")).length = 0 ∧
    (runMonitor Variant.api emptyState c1Steps).1.mails =
      [{ websiteID := 1, alertType := "down" }] := by
  decide

/-- C2: the cooldown invariant of the features variant.  Whenever
`sendDownAlert` or `sendRecoveryAlert` runs while an `alert_history` record
for the same website and kind lies inside the one-hour window,
`ShouldSendAlert` returns false and the send leaves the state unchanged; and
two consecutive down-alert attempts for the same website within the window
produce exactly one mailer invocation. -/
theorem c2_cooldown_suppression :
    (∀ (st : State) (wid now : Int) (env : Env) (a : AlertRow),
      a ∈ st.alerts → a.websiteID = wid → a.alertType = "down" → now - 3600 < a.sentAt →
      shouldSendAlert st wid "down" now = false ∧ sendDownAlert st wid now env = st) ∧
    (∀ (st : State) (wid now : Int) (env : Env) (a : AlertRow),
      a ∈ st.alerts → a.websiteID = wid → a.alertType = "recovery" → now - 3600 < a.sentAt →
      shouldSendAlert st wid "recovery" now = false ∧ sendRecoveryAlert st wid now env = st) ∧
    (∀ (st : State) (wid t1 t2 : Int) (env1 env2 : Env),
      env1.sendOk = true → env1.recordOk = true →
      (∀ a ∈ st.alerts, a.websiteID = wid → a.alertType = "down" → a.sentAt ≤ t1 - 3600) →
      t2 - 3600 < t1 →
      (sendDownAlert (sendDownAlert st wid t1 env1) wid t2 env2).mails =
        st.mails ++ [{ websiteID := wid, alertType := "down" }]) := by
  refine ⟨?_, ?_, ?_⟩
  · intro st wid now env a ha h1 h2 h3
    have hf := shouldSendAlert_false_of_recent st wid now "down" a ha h1 h2 h3
    exact ⟨hf, sendDownAlert_suppressed st wid now env hf⟩
  · intro st wid now env a ha h1 h2 h3
    have hf := shouldSendAlert_false_of_recent st wid now "recovery" a ha h1 h2 h3
    exact ⟨hf, sendRecoveryAlert_suppressed st wid now env hf⟩
  · intro st wid t1 t2 env1 env2 hs hr hnone hwin
    have ht := shouldSendAlert_true_of_none st wid t1 "down" hnone
    rw [sendDownAlert_sends st wid t1 env1 ht hs hr]
    have hf := shouldSendAlert_false_of_recent
      { checks := st.checks,
        alerts := st.alerts ++ [{ websiteID := wid, alertType := "down", sentAt := t1 }],
        mails := st.mails ++ [{ websiteID := wid, alertType := "down" }] }
      wid t2 "down" { websiteID := wid, alertType := "down", sentAt := t1 }
      (by simp) rfl rfl hwin
    rw [sendDownAlert_suppressed _ wid t2 env2 hf]

/-- State with one down-alert record inside the one-hour window of time 200. -/
def c2AlertState : State :=
  { checks := [], alerts := [{ websiteID := 1, alertType := "down", sentAt := 100 }], mails := [] }

/-- State with one recovery-alert record inside the window of time 200. -/
def c2RecState : State :=
  { checks := [], alerts := [{ websiteID := 1, alertType := "recovery", sentAt := 100 }], mails := [] }

/-- Witness for C2 at concrete inputs. -/
theorem c2_cooldown_suppression_witness :
    (shouldSendAlert c2AlertState 1 "down" 200 = false ∧
     sendDownAlert c2AlertState 1 200 envAll = c2AlertState) ∧
    (shouldSendAlert c2RecState 1 "recovery" 200 = false ∧
     sendRecoveryAlert c2RecState 1 200 envAll = c2RecState) ∧
    (sendDownAlert (sendDownAlert emptyState 1 1000 envAll) 1 1500 envAll).mails =
      emptyState.mails ++ [{ websiteID := 1, alertType := "down" }] := by
  refine ⟨?_, ?_, ?_⟩
  · exact c2_cooldown_suppression.1 c2AlertState 1 200 envAll
      { websiteID := 1, alertType := "down", sentAt := 100 }
      (List.mem_singleton.mpr rfl) rfl rfl (by decide)
  · exact c2_cooldown_suppression.2.1 c2RecState 1 200 envAll
      { websiteID := 1, alertType := "recovery", sentAt := 100 }
      (List.mem_singleton.mpr rfl) rfl rfl (by decide)
  · exact c2_cooldown_suppression.2.2 emptyState 1 1000 1500 envAll envAll rfl rfl
      (fun a ha => absurd ha (List.not_mem_nil a)) (by decide)

/-- C4: the website checker marks a target up exactly when the HTTP status is
200 (other codes, including other 2xx such as 204, give up = false), and a
network-level failure yields up = false, statusCode = 0, and the error text. -/
theorem c4_checker_up_iff_200 :
    (∀ code : Int, ((probeOutcome (ProbeResult.success code)).isUp = true) ↔ code = 200) ∧
    ((probeOutcome (ProbeResult.success 204)).isUp = false) ∧
    (∀ msg : String, probeOutcome (ProbeResult.failure msg) =
      { isUp := false, statusCode := 0, errorMsg := msg }) := by
  refine ⟨?_, by decide, fun msg => rfl⟩
  intro code
  simp [probeOutcome]

/-- C7: when a website's very first observation is processed (no prior check
row in the store), no variant raises a transition alert candidate — neither
the went-down branch nor the recovered branch fires, whatever the outcome. -/
theorem c7_first_observation_no_transition (v : Variant) (st : State)
    (wid : Int) (probe : ProbeResult) (rt now : Int) (env : Env)
    (h : st.checks.filter (fun r => r.websiteID == wid) = []) :
    ((stepCheck v st ⟨wid, probe, rt, now, env⟩).2.filter
      (fun c => c.trigger == Trigger.transitionDown ||
        c.trigger == Trigger.transitionRecovery)) = [] := by
  have hb : ∀ r ∈ st.checks, r.websiteID = wid → r.checkedAt < now := by
    intro r hr heq
    have hmem : r ∈ st.checks.filter (fun r => r.websiteID == wid) :=
      List.mem_filter.mpr ⟨hr, by simp [heq]⟩
    rw [h] at hmem
    exact absurd hmem (List.not_mem_nil r)
  rw [List.filter_eq_nil_iff]
  intro c hc
  have hcand := (stepCheck_cases v st ⟨wid, probe, rt, now, env⟩ hb).1 c hc
  rw [hcand]
  decide

/-- Witness for C7: a first observation that is down, in the api variant. -/
theorem c7_first_observation_no_transition_witness :
    ((stepCheck Variant.api emptyState ⟨1, ProbeResult.success 500, 3, 0, envAll⟩).2.filter
      (fun c => c.trigger == Trigger.transitionDown ||
        c.trigger == Trigger.transitionRecovery)) = [] :=
  c7_first_observation_no_transition Variant.api emptyState 1 (ProbeResult.success 500)
    3 0 envAll rfl

/-- C8: one-way atomicity of alert sending in the features variant.  If the
mailer send fails, no alert record is appended (the state is unchanged); if
the send succeeds and recording fails, the mail is logged as sent, nothing is
recorded, and the operation still completes. -/
theorem c8_send_record_one_way_atomicity :
    (∀ (st : State) (wid now : Int) (env : Env), env.sendOk = false →
      sendDownAlert st wid now env = st ∧ sendRecoveryAlert st wid now env = st) ∧
    (∀ (st : State) (wid now : Int) (env : Env),
      env.sendOk = true → env.recordOk = false →
      shouldSendAlert st wid "down" now = true →
      (sendDownAlert st wid now env).mails =
        st.mails ++ [{ websiteID := wid, alertType := "down" }] ∧
      (sendDownAlert st wid now env).alerts = st.alerts ∧
      (sendDownAlert st wid now env).checks = st.checks) ∧
    (∀ (st : State) (wid now : Int) (env : Env),
      env.sendOk = true → env.recordOk = false →
      shouldSendAlert st wid "recovery" now = true →
      (sendRecoveryAlert st wid now env).mails =
        st.mails ++ [{ websiteID := wid, alertType := "recovery" }] ∧
      (sendRecoveryAlert st wid now env).alerts = st.alerts ∧
      (sendRecoveryAlert st wid now env).checks = st.checks) := by
  refine ⟨?_, ?_, ?_⟩
  · intro st wid now env h
    constructor
    · unfold sendDownAlert
      rw [h]
      simp
    · unfold sendRecoveryAlert
      rw [h]
      simp
  · intro st wid now env hs hr ht
    unfold sendDownAlert
    rw [ht, hs, hr]
    simp
  · intro st wid now env hs hr ht
    unfold sendRecoveryAlert
    rw [ht, hs, hr]
    simp

/-- Witness for C8 at concrete inputs. -/
theorem c8_send_record_one_way_atomicity_witness :
    (sendDownAlert emptyState 1 0 envNoSend = emptyState ∧
     sendRecoveryAlert emptyState 1 0 envNoSend = emptyState) ∧
    ((sendDownAlert emptyState 1 0 envNoRecord).mails =
        emptyState.mails ++ [{ websiteID := 1, alertType := "down" }] ∧
     (sendDownAlert emptyState 1 0 envNoRecord).alerts = emptyState.alerts ∧
     (sendDownAlert emptyState 1 0 envNoRecord).checks = emptyState.checks) ∧
    ((sendRecoveryAlert emptyState 1 0 envNoRecord).mails =
        emptyState.mails ++ [{ websiteID := 1, alertType := "recovery" }] ∧
     (sendRecoveryAlert emptyState 1 0 envNoRecord).alerts = emptyState.alerts ∧
     (sendRecoveryAlert emptyState 1 0 envNoRecord).checks = emptyState.checks) :=
  ⟨c8_send_record_one_way_atomicity.1 emptyState 1 0 envNoSend rfl,
   c8_send_record_one_way_atomicity.2.1 emptyState 1 0 envNoRecord rfl rfl (by decide),
   c8_send_record_one_way_atomicity.2.2 emptyState 1 0 envNoRecord rfl rfl (by decide)⟩

/-- A short run with a down observation between two up observations. -/
def c10Steps : List Step :=
  [{ websiteID := 1, probe := ProbeResult.success 200, responseTime := 5, now := 0, env := envAll },
   { websiteID := 1, probe := ProbeResult.success 500, responseTime := 5, now := 30, env := envAll },
   { websiteID := 1, probe := ProbeResult.success 200, responseTime := 5, now := 60, env := envAll }]

/-- C10 (implicit): in every website-monitor variant the observation is
stored before `handleStatusChange` reads the previous status, and the
last-status query returns the most recently appended row; hence the status
read back equals the status just written, the down-to-up branch never fires,
and over any run from the empty store with strictly increasing check times the
mailer is never invoked with kind recovery. -/
theorem c10_store_before_read_no_recovery :
    (∀ (st : State) (wid code rt : Int) (isUp : Bool) (msg : String) (now : Int),
      (∀ r ∈ st.checks, r.websiteID = wid → r.checkedAt < now) →
      getLastWebsiteStatus (storeUptimeCheck st wid code rt isUp msg now) wid =
        some { websiteID := wid, status := if isUp then "up" else "down",
               statusCode := code, responseTime := rt, errorMsg := msg,
               checkedAt := now }) ∧
    (∀ (v : Variant) (steps : List Step),
      List.Pairwise (fun a b => a.now < b.now) steps →
      ((runMonitor v emptyState steps).1.mails.filter
        (fun m => m.alertType == "recovery")) = [] ∧
      ((runMonitor v emptyState steps).2.filter
        (fun c => c.trigger == Trigger.transitionRecovery)) = []) := by
  constructor
  · exact getLast_after_store
  · intro v steps hinc
    have hrun := runMonitor_spec v steps emptyState
      (fun r hr => absurd hr (List.not_mem_nil r)) hinc
    constructor
    · rw [List.filter_eq_nil_iff]
      intro m hm
      rcases hrun.1 m hm with h1 | h1
      · exact absurd h1 (List.not_mem_nil m)
      · rw [h1]
        decide
    · rw [List.filter_eq_nil_iff]
      intro c hc
      rw [hrun.2 c hc]
      decide

/-- Witness for C10 at concrete inputs: the read-back equality after one
store, and a concrete run in the server variant with no recovery mail. -/
theorem c10_store_before_read_no_recovery_witness :
    getLastWebsiteStatus (storeUptimeCheck emptyState 1 200 5 true "" 0) 1 =
      some { websiteID := 1, status := "up", statusCode := 200, responseTime := 5,
             errorMsg := "", checkedAt := 0 } ∧
    ((runMonitor Variant.server emptyState c10Steps).1.mails.filter
      (fun m => m.alertType == "recovery")) = [] ∧
    ((runMonitor Variant.server emptyState c10Steps).2.filter
      (fun c => c.trigger == Trigger.transitionRecovery)) = [] := by
  have h1 := c10_store_before_read_no_recovery.1 emptyState 1 200 5 true "" 0
    (fun r hr => absurd hr (List.not_mem_nil r))
  have h2 := c10_store_before_read_no_recovery.2 Variant.server c10Steps (by decide)
  exact ⟨by simpa using h1, h2.1, h2.2⟩


/-- Date oracle on which every layout fails. -/
def tpNone : TimeParse := fun _ _ => none

/-- Date oracle succeeding exactly on the third layout for the string d1. -/
def tpThird : TimeParse := fun f s =>
  if f == "02 Jan 06 15:04 MST" && s == "d1" then some 42 else none

/-- Stored feed last fetched at time 100 with a one-hour interval. -/
def c3Feed : Feed :=
  { id := 1, title := "feed", description := "", siteURL := "",
    url := "http://example.test/feed", lastFetched := some 100, fetchInterval := 3600 }

/-- Store holding only `c3Feed` and no articles. -/
def c3State : RssState := { feeds := [c3Feed], articles := [] }

/-- Fetched content carrying one article with GUID g1. -/
def c3Parsed : ParsedFeed :=
  { title := "T", link := "L", description := "", language := "",
    articles := [{ title := "a1", link := "l1", description := "", content := "",
                   author := "", guid := "g1", publishedAt := none }] }

/-- C3 counterexample: at time 200, with the feed last fetched at 100 and a
3600-second interval, `RefreshFeedByID` returns without fetching or
processing — the outcome is the interval skip and no article is ingested,
contradicting the claim that the manual single-target refresh bypasses the
interval-skip check. -/
theorem c3_counterexample_refresh_skips :
    RefreshFeedByID c3State 1 200 (some c3Parsed) =
      some (c3State, UpdateOutcome.skippedNotDue) ∧
    (RefreshFeedByID c3State 1 200 (some c3Parsed)).map
      (fun p => p.1.articles.length) = some 0 := by
  exact ⟨rfl, rfl⟩

/-- C3 (amended): `RefreshFeedByID` runs exactly the same `updateFeed` as a
scheduled cycle, so it applies the interval-skip check rather than bypassing
it: when the feed was fetched less than `fetchInterval` seconds ago the call
returns with the store unchanged and nothing fetched. -/
theorem c3_refresh_applies_interval_skip (st : RssState) (fid : Int) (f : Feed)
    (now : Int) (fr : Option ParsedFeed) (t : Int)
    (hget : getFeed st fid = some f) :
    RefreshFeedByID st fid now fr = some (updateFeed st f now fr) ∧
    (f.lastFetched = some t → now - t < f.fetchInterval →
      RefreshFeedByID st fid now fr = some (st, UpdateOutcome.skippedNotDue)) := by
  have h1 : RefreshFeedByID st fid now fr = some (updateFeed st f now fr) := by
    unfold RefreshFeedByID
    rw [hget]
  refine ⟨h1, ?_⟩
  intro hlf hlt
  rw [h1]
  unfold updateFeed
  rw [hlf]
  simp [hlt]

/-- Witness for C3 at concrete inputs. -/
theorem c3_refresh_applies_interval_skip_witness :
    RefreshFeedByID c3State 1 200 (some c3Parsed) =
      some (updateFeed c3State c3Feed 200 (some c3Parsed)) ∧
    RefreshFeedByID c3State 1 200 (some c3Parsed) =
      some (c3State, UpdateOutcome.skippedNotDue) := by
  have h := c3_refresh_applies_interval_skip c3State 1 c3Feed 200 (some c3Parsed) 100 rfl
  exact ⟨h.1, h.2 rfl (by decide)⟩

/-- C5: feed ingestion is idempotent.  Running the article loop a second time
on the same parsed content creates zero new rows (every existence check
returns true, so `CreateArticle` is never reached), and the loop preserves
uniqueness of the (feed, GUID) keys. -/
theorem c5_ingestion_idempotent :
    (∀ (st : RssState) (fid : Int) (arts : List ParsedArticle),
      processArticles (processArticles st fid arts).1 fid arts =
        ((processArticles st fid arts).1, 0)) ∧
    (∀ (st : RssState) (fid : Int) (arts : List ParsedArticle),
      (articleKeys st).Nodup → (articleKeys (processArticles st fid arts).1).Nodup) := by
  constructor
  · intro st fid arts
    exact processArticles_noop _ fid arts (existsBy_after st fid arts)
  · intro st fid arts h
    exact processArticles_nodup st fid arts h

/-- Two distinct articles for the C5 witness. -/
def c5Arts : List ParsedArticle :=
  [{ title := "a1", link := "", description := "", content := "", author := "",
     guid := "g1", publishedAt := none },
   { title := "a2", link := "", description := "", content := "", author := "",
     guid := "g2", publishedAt := some 7 }]

/-- Empty RSS store for the C5 witness. -/
def c5State : RssState := { feeds := [], articles := [] }

/-- Witness for C5 at concrete inputs. -/
theorem c5_ingestion_idempotent_witness :
    processArticles (processArticles c5State 1 c5Arts).1 1 c5Arts =
      ((processArticles c5State 1 c5Arts).1, 0) ∧
    (articleKeys (processArticles c5State 1 c5Arts).1).Nodup :=
  ⟨c5_ingestion_idempotent.1 c5State 1 c5Arts,
   c5_ingestion_idempotent.2 c5State 1 c5Arts (by decide)⟩

/-- An RSS document with no version attribute, for the C6 counterexample. -/
def c6Rss : RSSFeed :=
  { version := "",
    channel := { title := "t", link := "", description := "", language := "", items := [] } }

/-- C6 counterexample: for a well-formed RSS document without a version
attribute served with a content type not mentioning rss or xml, the source's
`parseFeed` fails with the unparseable-feed error, while the ordering claimed
by the spec (strict version check first, unrestricted RSS retry last) would
succeed — so the spec's branch order does not describe the code. -/
theorem c6_counterexample_parse_order :
    parseFeed tpNone false (some c6Rss) none =
      Except.error "unable to parse feed as RSS or Atom" ∧
    parseFeedSpecClaimed tpNone false (some c6Rss) none =
      Except.ok (parseRSSFeed tpNone c6Rss) ∧
    parseFeed tpNone false (some c6Rss) none ≠
      parseFeedSpecClaimed tpNone false (some c6Rss) none := by
  refine ⟨rfl, rfl, ?_⟩
  intro hcontr
  exact Except.noConfusion
    (hcontr : (Except.error "unable to parse feed as RSS or Atom" : Except String ParsedFeed) =
      Except.ok (parseRSSFeed tpNone c6Rss))

/-- C6 (amended): the source's parsing policy is, in order: (1) when the
content type mentions rss or xml, an RSS schema parse with no
version-attribute requirement; (2) on failure an Atom schema parse; (3) on
failure an RSS schema parse requiring a non-empty version attribute; (4)
otherwise the unparseable-feed error. -/
theorem c6_parse_order_amended (tp : TimeParse) (ct : Bool)
    (rssRes : Option RSSFeed) (atomRes : Option AtomFeed) :
    parseFeed tp ct rssRes atomRes = parseFeedSpecAmended tp ct rssRes atomRes := by
  cases ct <;> cases rssRes <;> cases atomRes <;>
    simp [parseFeed, parseFeedSpecAmended]

/-- C9: date normalization.  `parseDate` tries the fixed ordered layout list
and the first success wins; when every layout fails the result is `none`; and
`parseRSSFeed` never drops an item — an item whose date is unparseable is kept
with a null published-at. -/
theorem c9_date_first_match_keeps_item :
    (∀ (tp : TimeParse) (s : String),
      (∀ f ∈ dateFormats, tp f s = none) → parseDate tp s = none) ∧
    (∀ (tp : TimeParse) (pre : List String) (f : String) (post : List String)
        (s : String) (t : Int),
      dateFormats = pre ++ f :: post → (∀ g ∈ pre, tp g s = none) → tp f s = some t →
      parseDate tp s = some t) ∧
    (∀ (tp : TimeParse) (rss : RSSFeed),
      (parseRSSFeed tp rss).articles.length = rss.channel.items.length) ∧
    (∀ (tp : TimeParse) (rss : RSSFeed) (item : Item),
      item ∈ rss.channel.items →
      (∀ f ∈ dateFormats, tp f item.pubDate = none) →
      ({ title := item.title, link := item.link, description := item.description,
         content := item.content, author := item.author, guid := item.guid,
         publishedAt := none } : ParsedArticle) ∈ (parseRSSFeed tp rss).articles) := by
  refine ⟨?_, ?_, ?_, ?_⟩
  · intro tp s h
    exact firstParse_eq_none tp dateFormats s h
  · intro tp pre f post s t hsplit hpre hf
    unfold parseDate
    rw [hsplit]
    exact firstParse_first tp pre f post s t hpre hf
  · intro tp rss
    simp [parseRSSFeed]
  · intro tp rss item hmem hfail
    have hdate : (if item.pubDate == "" then none else parseDate tp item.pubDate) =
        (none : Option Int) := by
      cases hpd : (item.pubDate == "") with
      | true => simp
      | false =>
        simp only [Bool.false_eq_true, if_false]
        exact firstParse_eq_none tp dateFormats item.pubDate hfail
    have harticle : itemToArticle tp item =
        { title := item.title, link := item.link, description := item.description,
          content := item.content, author := item.author, guid := item.guid,
          publishedAt := none } := by
      unfold itemToArticle
      rw [hdate]
    unfold parseRSSFeed
    exact List.mem_map.mpr ⟨item, hmem, harticle⟩

/-- An RSS document with one item whose date is unparseable, for the C9
witness. -/
def c9Rss : RSSFeed :=
  { version := "2.0",
    channel := { title := "c", link := "", description := "", language := "",
                 items := [{ title := "t1", link := "l1", description := "", content := "",
                             author := "", pubDate := "garbage", guid := "g1" }] } }

/-- Witness for C9 at concrete inputs. -/
theorem c9_date_first_match_keeps_item_witness :
    parseDate tpNone "nonsense" = none ∧
    parseDate tpThird "d1" = some 42 ∧
    (parseRSSFeed tpNone c9Rss).articles.length = 1 ∧
    ({ title := "t1", link := "l1", description := "", content := "", author := "",
       guid := "g1", publishedAt := none } : ParsedArticle) ∈
      (parseRSSFeed tpNone c9Rss).articles := by
  refine ⟨?_, ?_, ?_, ?_⟩
  · exact c9_date_first_match_keeps_item.1 tpNone "nonsense" (fun f hf => rfl)
  · exact c9_date_first_match_keeps_item.2.1 tpThird
      ["Mon, 02 Jan 2006 15:04:05 MST", "Mon, 02 Jan 2006 15:04:05 -0700"]
      "02 Jan 06 15:04 MST"
      ["02 Jan 06 15:04 -0700", "2006-01-02T15:04:05Z", "2006-01-02T15:04:05-07:00",
       "2006-01-02 15:04:05", "Mon, 02 Jan 2006 15:04:05 MST", "02 Jan 2006 15:04:05 MST"]
      "d1" 42 rfl (by decide) (by decide)
  · exact c9_date_first_match_keeps_item.2.2.1 tpNone c9Rss
  · exact c9_date_first_match_keeps_item.2.2.2 tpNone c9Rss
      { title := "t1", link := "l1", description := "", content := "", author := "",
        pubDate := "garbage", guid := "g1" }
      (List.mem_singleton.mpr rfl) (fun f hf => rfl)
